import Mathlib

/-
Verification of the user-provisioning reconciliation workflow of the
digital-citizenship onboarding service, shallowly embedded from
src/apim_operations.ts and the orchestrator module.

Remote-call boundaries (the Azure API-management client, the MSI login, the
downstream collaborators) are modelled by passing the response each call
would return as an explicit argument, while the list of calls actually
issued is returned as an ordered trace.  The embedding is sequential, as is
the source: every remote call is awaited before the next is started, so the
position of a call in the trace is its temporal position.
-/

namespace Onboarding

/-- JS truthiness test for an optional string field: a value is falsy when
it is undefined or the empty string (`!user.id`, `!user.name`, `!product.id`,
`!subscription.name` in the source). -/
def falsyStr : Option String → Bool
  | none => true
  | some s => s = ""

/-- The fields of the Azure `UserContract` that the embedded operations
inspect.  In the source the fields are optional strings. -/
structure UserContract where
  id : Option String
  name : Option String
  email : Option String
  deriving DecidableEq, Repr

/-- A group record as returned by `apiClient.userGroup.list`; only its
`name` field is read. -/
structure GroupContract where
  name : Option String
  deriving DecidableEq, Repr

/-- A product record as returned by `apiClient.product.get`; only its `id`
field is read. -/
structure ProductContract where
  id : Option String
  deriving DecidableEq, Repr

/-- The fields of the Azure `SubscriptionContract` that the embedded
operations inspect. -/
structure SubscriptionContract where
  userId : Option String
  name : Option String
  state : Option String
  primaryKey : Option String
  secondaryKey : Option String
  deriving DecidableEq, Repr

/-- The body of the `subscription.createOrUpdate` call issued by
`addUserSubscriptionToProduct`.  Generated subscription identifiers are
modelled as natural numbers (see `addUserSubscriptionToProduct`). -/
structure SubscriptionCreateParams where
  displayName : Nat
  productId : String
  state : String
  userId : String
  deriving DecidableEq, Repr

/-- One remote call issued against the API-management backend or the
identity provider.  A trace is a list of these, in temporal order. -/
inductive ApiCall where
  | listUsersByEmail (email : String)
  | listUserGroups (userName : String)
  | createGroupUser (groupName : String) (userName : String)
  | getProduct (productName : String)
  | createOrUpdateSubscriptionCall (subscriptionId : Nat)
      (params : SubscriptionCreateParams)
  | getSubscription (subscriptionId : String)
  | regeneratePrimaryKeyCall (subscriptionId : String)
  | regenerateSecondaryKeyCall (subscriptionId : String)
  | loginMSICall
  | getTokenCall
  deriving DecidableEq, Repr

/-- The credential record cached by `loginToApim`.  The token and the
long-lived login credential are opaque to the orchestration logic and are
modelled as numbers; `expiresOn` is an epoch instant in milliseconds. -/
structure ITokenAndCredentials where
  token : Nat
  loginCreds : Nat
  expiresOn : Nat
  deriving DecidableEq, Repr

/-- Embedding of `loginToApim`.  `now` is the value of `Date.now()`;
`freshLoginCreds` and `freshToken` are the responses the MSI login and the
token fetch would return if issued.  Returns the credential together with
the trace of identity-provider calls issued. -/
def loginToApim (now : Nat) (tokenCreds : Option ITokenAndCredentials)
    (freshLoginCreds freshToken : Nat) :
    ITokenAndCredentials × List ApiCall :=
  match tokenCreds with
  | some tc =>
    if tc.expiresOn ≤ now then
      ({ token := freshToken, loginCreds := freshLoginCreds,
         expiresOn := now + 3600 * 1000 },
       [ApiCall.loginMSICall, ApiCall.getTokenCall])
    else
      (tc, [])
  | none =>
    ({ token := freshToken, loginCreds := freshLoginCreds,
       expiresOn := now + 3600 * 1000 },
     [ApiCall.loginMSICall, ApiCall.getTokenCall])

/-- Lookup in the in-memory user cache (`apimUserCache[email]`).  The cache
is an association list; an assignment shadows older entries, so lookup
returns the first match. -/
def cacheLookup (cache : List (String × UserContract)) (email : String) :
    Option UserContract :=
  match cache with
  | [] => none
  | (k, v) :: rest => if k = email then some v else cacheLookup rest email

/-- Embedding of `getApimUser`.  `results` is the response the backend
directory query (`apiClient.user.listByService` with an email-equality
filter) would return if issued.  Returns the resolved user, the updated
cache and the trace of backend queries issued. -/
def getApimUser (cache : List (String × UserContract)) (email : String)
    (results : List UserContract) :
    Option UserContract × List (String × UserContract) × List ApiCall :=
  match cacheLookup cache email with
  | some cachedUser => (some cachedUser, cache, [])
  | none =>
    match results with
    | [] => (none, cache, [ApiCall.listUsersByEmail email])
    | user :: _ =>
      if falsyStr user.id || falsyStr user.name then
        (none, cache, [ApiCall.listUsersByEmail email])
      else
        (some user, (email, user) :: cache, [ApiCall.listUsersByEmail email])

/-- Number of backend directory queries in a trace. -/
def countQueries (t : List ApiCall) : Nat :=
  t.countP (fun c =>
    match c with
    | ApiCall.listUsersByEmail _ => true
    | _ => false)

/-- Every entry ever stored in the user cache has a truthy (present and
non-empty) id and name. -/
def cacheWF (cache : List (String × UserContract)) : Prop :=
  ∀ p ∈ cache, ¬ falsyStr p.2.id ∧ ¬ falsyStr p.2.name

instance (cache : List (String × UserContract)) : Decidable (cacheWF cache) :=
  List.decidableBAll _ cache

/-- Embedding of `getUserSubscription`.  `resp` is the response the
backend `subscription.get` call returns.  The source returns `none` when
the fetched subscription is not owned by `userId` or lacks a name. -/
def getUserSubscription (subscriptionId userId : String)
    (resp : SubscriptionContract) :
    Option SubscriptionContract × List ApiCall :=
  if resp.userId ≠ some userId ∨ falsyStr resp.name then
    (none, [ApiCall.getSubscription subscriptionId])
  else
    (some resp, [ApiCall.getSubscription subscriptionId])

/-- Embedding of `regeneratePrimaryKey`.  `resp1` and `resp2` are the
responses of the first and the second `subscription.get` calls (the backend
may answer differently the second time). -/
def regeneratePrimaryKey (subscriptionId userId : String)
    (resp1 resp2 : SubscriptionContract) :
    Option SubscriptionContract × List ApiCall :=
  let first := getUserSubscription subscriptionId userId resp1
  match first.1 with
  | none => (none, first.2)
  | some _ =>
    let second := getUserSubscription subscriptionId userId resp2
    (second.1,
     first.2 ++ [ApiCall.regeneratePrimaryKeyCall subscriptionId] ++ second.2)

/-- Embedding of `regenerateSecondaryKey`; identical to
`regeneratePrimaryKey` except for the backend operation invoked. -/
def regenerateSecondaryKey (subscriptionId userId : String)
    (resp1 resp2 : SubscriptionContract) :
    Option SubscriptionContract × List ApiCall :=
  let first := getUserSubscription subscriptionId userId resp1
  match first.1 with
  | none => (none, first.2)
  | some _ =>
    let second := getUserSubscription subscriptionId userId resp2
    (second.1,
     first.2 ++ [ApiCall.regenerateSecondaryKeyCall subscriptionId] ++ second.2)

/-- True exactly on `Except.error`. -/
def isErr (e : Except String SubscriptionContract) : Bool :=
  match e with
  | Except.error _ => true
  | Except.ok _ => false

/-- Embedding of `addUserSubscriptionToProduct`.  The `ulid()` generator is
modelled as a counter `gen`: each call uses the current counter value as
the fresh identifier and returns the incremented counter, so successive
identifiers are strictly increasing — this captures the collision
resistance (an identifier never repeats) and the lexicographic sortability
(identifier order is generation order) of ULIDs.  `product` is the response
of `product.get` and `backendResp` the response of
`subscription.createOrUpdate`. -/
def addUserSubscriptionToProduct (gen : Nat) (userId productName : String)
    (product : Option ProductContract) (backendResp : SubscriptionContract) :
    Except String SubscriptionContract × Nat × List ApiCall :=
  match product with
  | none =>
    (Except.error "Cannot find API management product for update", gen,
     [ApiCall.getProduct productName])
  | some p =>
    if falsyStr p.id then
      (Except.error "Cannot find API management product for update", gen,
       [ApiCall.getProduct productName])
    else
      (Except.ok backendResp, gen + 1,
       [ApiCall.getProduct productName,
        ApiCall.createOrUpdateSubscriptionCall gen
          { displayName := gen, productId := p.id.getD "",
            state := "active", userId := userId }])

/-- Embedding of `addUserToGroups`.  `existingGroups` is the response of
`apiClient.userGroup.list` for this user.  The source computes the set of
desired groups missing from the current memberships, returns an empty list
when nothing is missing, and otherwise folds over the full `groups`
argument with an awaited `groupUser.create` per element, accumulating the
names added in order. -/
def addUserToGroups (user : UserContract) (groups : List String)
    (existingGroups : List GroupContract) :
    Except String (List String) × List ApiCall :=
  if falsyStr user.name then
    (Except.error "Cannot parse user", [])
  else
    let uname := user.name.getD ""
    let existingGroupsNames : List (Option String) :=
      existingGroups.map (fun g => g.name)
    let missingGroups :=
      groups.filter (fun g => decide (some g ∉ existingGroupsNames))
    if missingGroups.isEmpty then
      (Except.ok [], [ApiCall.listUserGroups uname])
    else
      (Except.ok groups,
       ApiCall.listUserGroups uname ::
         groups.map (fun g => ApiCall.createGroupUser g uname))

/-- The authenticated profile fields the orchestrator reads. -/
structure IProfile where
  emails : List String
  given_name : String
  family_name : String
  oid : String
  deriving DecidableEq, Repr

/-- One downstream collaborator call issued by the orchestrator. -/
inductive DownstreamCall where
  | createFakeProfileCall (email : String)
  | upsertServiceCall (serviceId : String) (fiscalCode : String)
  | sendMessageCall (fiscalCode : String)
  deriving DecidableEq, Repr

/-- Embedding of the orchestrator `assignUserToProducts`, from the point
where the subscription returned by the user-update step is examined.
`subscription` is that result; `fakeProfileResp`, `upsertResp` and
`sendResp` are the responses the three downstream collaborators would
return if called (an `Except.error` models a rejected promise, which
propagates).  Returns the overall outcome and the ordered trace of
downstream calls issued. -/
def assignUserToProducts (profile : IProfile)
    (subscription : Option SubscriptionContract)
    (fakeProfileResp : Except String String)
    (upsertResp sendResp : Except String Unit) :
    Except String Unit × List DownstreamCall :=
  match subscription with
  | none => (Except.ok (), [])
  | some s =>
    if falsyStr s.name then
      (Except.ok (), [])
    else
      let profileEmail := profile.emails.headD ""
      match fakeProfileResp with
      | Except.error e =>
        (Except.error e, [DownstreamCall.createFakeProfileCall profileEmail])
      | Except.ok fakeFiscalCode =>
        match upsertResp with
        | Except.error e =>
          (Except.error e,
           [DownstreamCall.createFakeProfileCall profileEmail,
            DownstreamCall.upsertServiceCall (s.name.getD "") fakeFiscalCode])
        | Except.ok _ =>
          match sendResp with
          | Except.error e =>
            (Except.error e,
             [DownstreamCall.createFakeProfileCall profileEmail,
              DownstreamCall.upsertServiceCall (s.name.getD "") fakeFiscalCode,
              DownstreamCall.sendMessageCall fakeFiscalCode])
          | Except.ok _ =>
            (Except.ok (),
             [DownstreamCall.createFakeProfileCall profileEmail,
              DownstreamCall.upsertServiceCall (s.name.getD "") fakeFiscalCode,
              DownstreamCall.sendMessageCall fakeFiscalCode])

/-- Concrete user for evaluating the group reconciler: internal reference
u1 is present and non-empty. -/
def c1User : UserContract :=
  { id := some "uid1", name := some "u1", email := some "e1" }

/-- Concrete current memberships: the user already belongs to group g1. -/
def c1Existing : List GroupContract := [{ name := some "g1" }]

/-- Claim C1 (evaluation at the failing input): with desired groups
[g1, g2] and current membership g1, `addUserToGroups` returns the full
desired list [g1, g2] as the added list and issues a group-create call for
the already-present g1 as well, while the set difference desired minus
current is only [g2] — the fold in the source iterates over `groups`
instead of the `missingGroups` it just computed. -/
theorem addUserToGroups_failing_input_eval :
    addUserToGroups c1User ["g1", "g2"] c1Existing =
      (Except.ok ["g1", "g2"],
       [ApiCall.listUserGroups "u1", ApiCall.createGroupUser "g1" "u1",
        ApiCall.createGroupUser "g2" "u1"]) ∧
    ["g1", "g2"].filter
        (fun g => decide (some g ∉ c1Existing.map (fun gc => gc.name))) =
      ["g2"] :=
  ⟨rfl, rfl⟩

/-- A directory result that has an identifier but no internal reference. -/
def c2User : UserContract :=
  { id := some "i1", name := none, email := some "e1" }

/-- Claim C2 counterexample: on a cache miss whose backend response is the
single user `c2User` (identifier present, internal reference missing), the
code returns absent, yet the response is non-empty and its top result does
not lack both fields — so absence is not equivalent to the claimed
condition. -/
theorem getApimUser_absent_iff_lacks_both_false :
    ¬ ((getApimUser [] "e1" [c2User]).1 = none ↔
        ([c2User] : List UserContract) = [] ∨
          (falsyStr c2User.id ∧ falsyStr c2User.name)) := by
  decide

/-- A subscription owned by u1 but lacking a name. -/
def c5Sub : SubscriptionContract :=
  { userId := some "u1", name := none, state := some "active",
    primaryKey := some "pk", secondaryKey := some "sk" }

/-- Claim C5 counterexample: the fetched subscription's owning user
matches the caller, yet `regeneratePrimaryKey` returns absent and never
issues the regeneration call, because the subscription lacks a name —
contradicting the claim that a matching owner implies the call is
issued. -/
theorem regeneratePrimaryKey_owner_match_no_call :
    c5Sub.userId = some "u1" ∧
    (regeneratePrimaryKey "s1" "u1" c5Sub c5Sub).1 = none ∧
    ApiCall.regeneratePrimaryKeyCall "s1" ∉
      (regeneratePrimaryKey "s1" "u1" c5Sub c5Sub).2 := by
  decide

/-- Claim C8 counterexample: with an empty cache and a backend that finds
no user for the email, two consecutive `getApimUser` calls with no
intervening clear issue two backend queries, not at most one — negative
results are not cached. -/
theorem getApimUser_two_calls_two_queries :
    ¬ (countQueries (getApimUser [] "e1" []).2.2 +
         countQueries
           (getApimUser (getApimUser [] "e1" []).2.1 "e1" []).2.2 ≤ 1) := by
  decide

/-- First fetch: the subscription is owned by u1 and has a name. -/
def c10Sub1 : SubscriptionContract :=
  { userId := some "u1", name := some "s1", state := some "active",
    primaryKey := some "pk", secondaryKey := some "sk" }

/-- Second fetch: the backend now reports a different owner. -/
def c10Sub2 : SubscriptionContract :=
  { userId := some "u2", name := some "s1", state := some "active",
    primaryKey := some "pk2", secondaryKey := some "sk2" }

/-- Claim C10: an execution in which the ownership check passes, the
key-regeneration call is issued, and yet the ownership-checked re-fetch
returns absent — the absent result does not mean the keys were left
untouched, for the primary and the secondary variant alike. -/
theorem regenerateKeys_nonatomic_absent_after_call :
    ApiCall.regeneratePrimaryKeyCall "s1" ∈
      (regeneratePrimaryKey "s1" "u1" c10Sub1 c10Sub2).2 ∧
    (regeneratePrimaryKey "s1" "u1" c10Sub1 c10Sub2).1 = none ∧
    ApiCall.regenerateSecondaryKeyCall "s1" ∈
      (regenerateSecondaryKey "s1" "u1" c10Sub1 c10Sub2).2 ∧
    (regenerateSecondaryKey "s1" "u1" c10Sub1 c10Sub2).1 = none := by
  decide

/-- Claim C3: a present, unexpired credential is returned unchanged with
no identity-provider call; an absent or expired credential triggers exactly
one login-plus-token-fetch sequence and yields an expiry of now plus one
hour, strictly greater than the call time. -/
theorem loginToApim_spec (now : Nat) (tokenCreds : Option ITokenAndCredentials)
    (freshLoginCreds freshToken : Nat) :
    (∀ tc, tokenCreds = some tc → now < tc.expiresOn →
       loginToApim now tokenCreds freshLoginCreds freshToken = (tc, [])) ∧
    ((tokenCreds = none ∨ ∃ tc, tokenCreds = some tc ∧ tc.expiresOn ≤ now) →
       (loginToApim now tokenCreds freshLoginCreds freshToken).2 =
           [ApiCall.loginMSICall, ApiCall.getTokenCall] ∧
         (loginToApim now tokenCreds freshLoginCreds freshToken).1 =
           { token := freshToken, loginCreds := freshLoginCreds,
             expiresOn := now + 3600 * 1000 } ∧
         now < (loginToApim now tokenCreds freshLoginCreds freshToken).1.expiresOn) := by
  constructor
  · rintro tc rfl h
    simp only [loginToApim]
    rw [if_neg (by omega)]
  · rintro (rfl | ⟨tc, rfl, h⟩)
    · refine ⟨rfl, rfl, ?_⟩
      show now < now + 3600 * 1000
      omega
    · simp only [loginToApim]
      rw [if_pos h]
      refine ⟨rfl, rfl, ?_⟩
      show now < now + 3600 * 1000
      omega

/-- A credential that is not yet expired at instant 5. -/
def c3Creds : ITokenAndCredentials :=
  { token := 1, loginCreds := 2, expiresOn := 10 }

/-- Witness for `loginToApim_spec`: at instant 5 the unexpired `c3Creds`
is returned unchanged with an empty trace, and an absent credential yields
the login-plus-token trace with a later expiry. -/
theorem loginToApim_spec_witness :
    loginToApim 5 (some c3Creds) 7 8 = (c3Creds, []) ∧
    ((loginToApim 5 none 7 8).2 =
         [ApiCall.loginMSICall, ApiCall.getTokenCall] ∧
       (loginToApim 5 none 7 8).1 =
         { token := 8, loginCreds := 7, expiresOn := 5 + 3600 * 1000 } ∧
       5 < (loginToApim 5 none 7 8).1.expiresOn) :=
  ⟨(loginToApim_spec 5 (some c3Creds) 7 8).1 c3Creds rfl (by decide),
   (loginToApim_spec 5 none 7 8).2 (Or.inl rfl)⟩

/-- Claim C6: when the backend reports every desired group as an existing
membership (as it does immediately after a successful reconciliation of
the same desired list), `addUserToGroups` succeeds with an empty added
list and its trace contains only the membership-list call — zero
group-create calls. -/
theorem addUserToGroups_idempotent (user : UserContract)
    (groups : List String) (existingGroups : List GroupContract)
    (hname : ¬ falsyStr user.name)
    (hcov : ∀ g ∈ groups, some g ∈ existingGroups.map (fun gc => gc.name)) :
    addUserToGroups user groups existingGroups =
      (Except.ok [], [ApiCall.listUserGroups (user.name.getD "")]) ∧
    ∀ g u, ApiCall.createGroupUser g u ∉
      (addUserToGroups user groups existingGroups).2 := by
  have hb : falsyStr user.name = false := by
    cases hfb : falsyStr user.name
    · rfl
    · exact absurd hfb hname
  have hfilter :
      groups.filter
          (fun g => decide (some g ∉ existingGroups.map (fun gc => gc.name))) =
        [] := by
    rw [List.filter_eq_nil_iff]
    intro g hg
    simpa using hcov g hg
  have heq : addUserToGroups user groups existingGroups =
      (Except.ok [], [ApiCall.listUserGroups (user.name.getD "")]) := by
    unfold addUserToGroups
    rw [hb]
    simp only [Bool.false_eq_true, if_false, hfilter, List.isEmpty_nil, if_pos]
  refine ⟨heq, ?_⟩
  rw [heq]
  intro g u
  simp

/-- Witness for `addUserToGroups_idempotent`: the user u1 already belongs
to g1, so reconciling the desired list [g1] is a no-op. -/
theorem addUserToGroups_idempotent_witness :
    addUserToGroups c1User ["g1"] c1Existing =
      (Except.ok [], [ApiCall.listUserGroups (c1User.name.getD "")]) ∧
    ∀ g u, ApiCall.createGroupUser g u ∉
      (addUserToGroups c1User ["g1"] c1Existing).2 :=
  addUserToGroups_idempotent c1User ["g1"] c1Existing (by decide) (by decide)

/-- Claim C7: when the subscription produced by the user-update step is
absent or lacks a name, the orchestrator terminates successfully with no
downstream call issued. -/
theorem assignUserToProducts_silent (profile : IProfile)
    (subscription : Option SubscriptionContract)
    (fakeProfileResp : Except String String)
    (upsertResp sendResp : Except String Unit)
    (h : subscription = none ∨ ∃ s, subscription = some s ∧ falsyStr s.name) :
    assignUserToProducts profile subscription fakeProfileResp upsertResp
        sendResp =
      (Except.ok (), []) := by
  rcases h with rfl | ⟨s, rfl, hs⟩
  · rfl
  · simp only [assignUserToProducts]
    rw [if_pos hs]

/-- A concrete authenticated profile. -/
def c7Profile : IProfile :=
  { emails := ["e1"], given_name := "Ada", family_name := "L", oid := "o1" }

/-- A subscription whose name is the empty string, hence falsy. -/
def c7Sub : SubscriptionContract :=
  { userId := some "u1", name := some "", state := some "active",
    primaryKey := some "pk", secondaryKey := some "sk" }

/-- Witness for `assignUserToProducts_silent`: a subscription with an
empty name short-circuits the run with an empty downstream trace. -/
theorem assignUserToProducts_silent_witness :
    assignUserToProducts c7Profile (some c7Sub) (Except.ok "f")
        (Except.ok ()) (Except.ok ()) =
      (Except.ok (), []) :=
  assignUserToProducts_silent c7Profile (some c7Sub) (Except.ok "f")
    (Except.ok ()) (Except.ok ()) (Or.inr ⟨c7Sub, rfl, by decide⟩)

/-- Claim C2 (amended): on a cache miss, `getApimUser` returns absent
exactly when the backend response is empty or its top result lacks an
identifier or an internal reference (either one missing suffices); in
every other case it returns the top result and stores it in the cache
keyed by the email. -/
theorem getApimUser_miss_spec (cache : List (String × UserContract))
    (email : String) (results : List UserContract)
    (hmiss : cacheLookup cache email = none) :
    ((getApimUser cache email results).1 = none ↔
       results = [] ∨
         ∃ u rest, results = u :: rest ∧
           (falsyStr u.id ∨ falsyStr u.name)) ∧
    (∀ u rest, results = u :: rest → ¬ falsyStr u.id → ¬ falsyStr u.name →
       getApimUser cache email results =
         (some u, (email, u) :: cache, [ApiCall.listUsersByEmail email])) := by
  constructor
  · cases results with
    | nil =>
      have heq : getApimUser cache email [] =
          (none, cache, [ApiCall.listUsersByEmail email]) := by
        simp only [getApimUser, hmiss]
      rw [heq]
      simp
    | cons u rest =>
      by_cases hb : (falsyStr u.id || falsyStr u.name) = true
      · have heq : getApimUser cache email (u :: rest) =
            (none, cache, [ApiCall.listUsersByEmail email]) := by
          simp only [getApimUser, hmiss]
          rw [if_pos hb]
        rw [heq]
        refine Iff.intro (fun _ => Or.inr ⟨u, rest, rfl, ?_⟩) (fun _ => rfl)
        simpa using hb
      · have heq : getApimUser cache email (u :: rest) =
            (some u, (email, u) :: cache,
             [ApiCall.listUsersByEmail email]) := by
          simp only [getApimUser, hmiss]
          rw [if_neg hb]
        rw [heq]
        constructor
        · intro h
          simp at h
        · rintro (h | ⟨v, vrest, hvr, hv⟩)
          · simp at h
          · rw [List.cons.injEq] at hvr
            obtain ⟨rfl, rfl⟩ := hvr
            exact absurd (by rw [Bool.or_eq_true]; simpa using hv) hb
  · intro v vrest hvr hid hname
    subst hvr
    have hb : ¬ ((falsyStr v.id || falsyStr v.name) = true) := by
      rw [Bool.or_eq_true]
      rintro (h | h)
      · exact hid h
      · exact hname h
    simp only [getApimUser, hmiss]
    rw [if_neg hb]

/-- A directory result with both the identifier and the internal
reference present. -/
def c2Good : UserContract :=
  { id := some "i2", name := some "n2", email := some "e1" }

/-- Witness for `getApimUser_miss_spec`: on an empty cache with response
[c2Good] the lookup succeeds and populates the cache. -/
theorem getApimUser_miss_spec_witness :
    ((getApimUser [] "e1" [c2Good]).1 = none ↔
       ([c2Good] : List UserContract) = [] ∨
         ∃ u rest, ([c2Good] : List UserContract) = u :: rest ∧
           (falsyStr u.id ∨ falsyStr u.name)) ∧
    getApimUser [] "e1" [c2Good] =
      (some c2Good, [("e1", c2Good)], [ApiCall.listUsersByEmail "e1"]) :=
  ⟨(getApimUser_miss_spec [] "e1" [c2Good] rfl).1,
   (getApimUser_miss_spec [] "e1" [c2Good] rfl).2 c2Good [] rfl (by decide)
     (by decide)⟩

/-- After a call that resolves a user, that user is in the cache under the
queried email. -/
theorem getApimUser_some_lookup (cache : List (String × UserContract))
    (email : String) (results : List UserContract) (u : UserContract)
    (h : (getApimUser cache email results).1 = some u) :
    cacheLookup (getApimUser cache email results).2.1 email = some u := by
  cases hc : cacheLookup cache email with
  | some v =>
    have heq : getApimUser cache email results = (some v, cache, []) := by
      simp only [getApimUser, hc]
    rw [heq] at h ⊢
    simp only [Option.some.injEq] at h
    subst h
    exact hc
  | none =>
    cases results with
    | nil =>
      have heq : getApimUser cache email [] =
          (none, cache, [ApiCall.listUsersByEmail email]) := by
        simp only [getApimUser, hc]
      rw [heq] at h
      simp at h
    | cons w rest =>
      by_cases hb : (falsyStr w.id || falsyStr w.name) = true
      · have heq : getApimUser cache email (w :: rest) =
            (none, cache, [ApiCall.listUsersByEmail email]) := by
          simp only [getApimUser, hc]
          rw [if_pos hb]
        rw [heq] at h
        simp at h
      · have heq : getApimUser cache email (w :: rest) =
            (some w, (email, w) :: cache,
             [ApiCall.listUsersByEmail email]) := by
          simp only [getApimUser, hc]
          rw [if_neg hb]
        rw [heq] at h ⊢
        simp only [Option.some.injEq] at h
        subst h
        simp [cacheLookup]

/-- The backend-query trace of one `getApimUser` call holds at most one
directory query. -/
theorem getApimUser_trace_small (cache : List (String × UserContract))
    (email : String) (results : List UserContract) :
    countQueries (getApimUser cache email results).2.2 ≤ 1 := by
  cases hc : cacheLookup cache email with
  | some v =>
    simp only [getApimUser, hc]
    simp [countQueries]
  | none =>
    cases results with
    | nil =>
      simp only [getApimUser, hc]
      simp [countQueries]
    | cons w rest =>
      by_cases hb : (falsyStr w.id || falsyStr w.name) = true
      · simp only [getApimUser, hc]
        rw [if_pos hb]
        simp [countQueries]
      · simp only [getApimUser, hc]
        rw [if_neg hb]
        simp [countQueries]

/-- Claim C8 (amended): when the first of two consecutive `getApimUser`
calls for the same email resolves a user, the second call is a pure cache
hit — it returns the cached user, leaves the cache unchanged, issues no
backend call — and the two calls together issue at most one backend
query. -/
theorem getApimUser_cached_second_call (cache : List (String × UserContract))
    (email : String) (results1 results2 : List UserContract)
    (u : UserContract) (h : (getApimUser cache email results1).1 = some u) :
    getApimUser (getApimUser cache email results1).2.1 email results2 =
      (some u, (getApimUser cache email results1).2.1, []) ∧
    countQueries (getApimUser cache email results1).2.2 +
      countQueries
        (getApimUser (getApimUser cache email results1).2.1 email
            results2).2.2 ≤ 1 := by
  have hl := getApimUser_some_lookup cache email results1 u h
  have hhit : ∀ c : List (String × UserContract), cacheLookup c email = some u →
      getApimUser c email results2 = (some u, c, []) := by
    intro c hcl
    simp only [getApimUser, hcl]
  have h2 := hhit _ hl
  refine ⟨h2, ?_⟩
  rw [h2]
  have h1 := getApimUser_trace_small cache email results1
  simpa [countQueries] using h1

/-- Witness for `getApimUser_cached_second_call`: a miss that resolves
`c2Good` followed by a second call; the second call is answered from the
cache. -/
theorem getApimUser_cached_second_call_witness :
    getApimUser (getApimUser [] "e1" [c2Good]).2.1 "e1" [] =
      (some c2Good, (getApimUser [] "e1" [c2Good]).2.1, []) ∧
    countQueries (getApimUser [] "e1" [c2Good]).2.2 +
      countQueries
        (getApimUser (getApimUser [] "e1" [c2Good]).2.1 "e1" []).2.2 ≤ 1 :=
  getApimUser_cached_second_call [] "e1" [c2Good] [] c2Good rfl

/-- On a cache miss the trace of `getApimUser` is exactly one directory
query. -/
theorem getApimUser_miss_trace (cache : List (String × UserContract))
    (email : String) (results : List UserContract)
    (h : cacheLookup cache email = none) :
    (getApimUser cache email results).2.2 =
      [ApiCall.listUsersByEmail email] := by
  simp only [getApimUser, h]
  cases results with
  | nil => rfl
  | cons w rest =>
    dsimp only
    split <;> rfl

/-- Claim C9: an absent result leaves the cache unchanged; the cache
invariant that every stored entry has a truthy id and name is preserved;
and after an absent result a further call for the same email again issues
a backend query. -/
theorem getApimUser_negative_not_cached (cache : List (String × UserContract))
    (email : String) (results : List UserContract) (hwf : cacheWF cache) :
    ((getApimUser cache email results).1 = none →
       (getApimUser cache email results).2.1 = cache) ∧
    cacheWF (getApimUser cache email results).2.1 ∧
    ((getApimUser cache email results).1 = none → ∀ results2,
       (getApimUser (getApimUser cache email results).2.1 email
           results2).2.2 =
         [ApiCall.listUsersByEmail email]) := by
  cases hc : cacheLookup cache email with
  | some v =>
    have heq : getApimUser cache email results = (some v, cache, []) := by
      simp only [getApimUser, hc]
    rw [heq]
    exact ⟨fun h => by simp at h, hwf, fun h => by simp at h⟩
  | none =>
    cases results with
    | nil =>
      have heq : getApimUser cache email [] =
          (none, cache, [ApiCall.listUsersByEmail email]) := by
        simp only [getApimUser, hc]
      rw [heq]
      exact ⟨fun _ => rfl, hwf,
        fun _ results2 => getApimUser_miss_trace cache email results2 hc⟩
    | cons w rest =>
      by_cases hb : (falsyStr w.id || falsyStr w.name) = true
      · have heq : getApimUser cache email (w :: rest) =
            (none, cache, [ApiCall.listUsersByEmail email]) := by
          simp only [getApimUser, hc]
          rw [if_pos hb]
        rw [heq]
        exact ⟨fun _ => rfl, hwf,
          fun _ results2 => getApimUser_miss_trace cache email results2 hc⟩
      · have heq : getApimUser cache email (w :: rest) =
            (some w, (email, w) :: cache,
             [ApiCall.listUsersByEmail email]) := by
          simp only [getApimUser, hc]
          rw [if_neg hb]
        rw [heq]
        refine ⟨fun h => by simp at h, ?_, fun h => by simp at h⟩
        intro p hp
        rcases List.mem_cons.mp hp with rfl | hp
        · have hbb := Bool.or_eq_false_iff.mp (Bool.eq_false_iff.mpr hb)
          exact ⟨by simp [hbb.1], by simp [hbb.2]⟩
        · exact hwf p hp

/-- Witness for `getApimUser_negative_not_cached`: a well-formed cache
holding c2Good under another key; the query for e9 finds nothing, leaves
the cache unchanged, and a repeat call queries again. -/
theorem getApimUser_negative_not_cached_witness :
    (getApimUser [("a1", c2Good)] "e9" []).2.1 = [("a1", c2Good)] ∧
    cacheWF (getApimUser [("a1", c2Good)] "e9" []).2.1 ∧
    (getApimUser (getApimUser [("a1", c2Good)] "e9" []).2.1 "e9"
        [c2Good]).2.2 =
      [ApiCall.listUsersByEmail "e9"] :=
  ⟨(getApimUser_negative_not_cached [("a1", c2Good)] "e9" []
      (by decide)).1 rfl,
   (getApimUser_negative_not_cached [("a1", c2Good)] "e9" []
      (by decide)).2.1,
   (getApimUser_negative_not_cached [("a1", c2Good)] "e9" []
      (by decide)).2.2 rfl [c2Good]⟩

/-- Claim C4: `addUserSubscriptionToProduct` errors exactly when the
product lookup yields nothing or a product with a falsy identifier;
otherwise it issues one create-or-update call carrying the freshly
generated identifier, the product identifier, the given user and the
state `active`, and returns the backend subscription as a success.  The
generated identifier is the current counter value, which is strictly
above every previously used identifier and strictly below every later
one, so it is never reused even across retries. -/
theorem addUserSubscriptionToProduct_spec (gen : Nat)
    (userId productName : String) (product : Option ProductContract)
    (backendResp : SubscriptionContract) (used : List Nat)
    (hused : ∀ u ∈ used, u < gen) :
    (isErr (addUserSubscriptionToProduct gen userId productName product
          backendResp).1 = true ↔
       product = none ∨ ∃ p, product = some p ∧ falsyStr p.id) ∧
    (∀ p, product = some p → ¬ falsyStr p.id →
       addUserSubscriptionToProduct gen userId productName product
           backendResp =
         (Except.ok backendResp, gen + 1,
          [ApiCall.getProduct productName,
           ApiCall.createOrUpdateSubscriptionCall gen
             { displayName := gen, productId := p.id.getD "",
               state := "active", userId := userId }])) ∧
    gen ∉ used ∧
    (∀ p, product = some p → ¬ falsyStr p.id →
       ∀ u ∈ used ++ [gen],
         u < (addUserSubscriptionToProduct gen userId productName product
               backendResp).2.1) := by
  have hfresh : gen ∉ used := fun hmem => absurd (hused gen hmem) (by omega)
  cases product with
  | none =>
    refine ⟨by simp [addUserSubscriptionToProduct, isErr], ?_, hfresh, ?_⟩
    · intro p hp
      exact absurd hp (by simp)
    · intro p hp
      exact absurd hp (by simp)
  | some p =>
    by_cases hid : falsyStr p.id = true
    · have heq : addUserSubscriptionToProduct gen userId productName (some p)
          backendResp =
          (Except.error "Cannot find API management product for update", gen,
           [ApiCall.getProduct productName]) := by
        simp only [addUserSubscriptionToProduct]
        rw [if_pos hid]
      rw [heq]
      refine ⟨⟨fun _ => Or.inr ⟨p, rfl, hid⟩, fun _ => rfl⟩, ?_, hfresh, ?_⟩
      · intro q hq hqid
        obtain rfl : p = q := by injection hq
        exact absurd hid hqid
      · intro q hq hqid
        obtain rfl : p = q := by injection hq
        exact absurd hid hqid
    · have heq : addUserSubscriptionToProduct gen userId productName (some p)
          backendResp =
          (Except.ok backendResp, gen + 1,
           [ApiCall.getProduct productName,
            ApiCall.createOrUpdateSubscriptionCall gen
              { displayName := gen, productId := p.id.getD "",
                state := "active", userId := userId }]) := by
        simp only [addUserSubscriptionToProduct]
        rw [if_neg hid]
      rw [heq]
      refine ⟨?_, ?_, hfresh, ?_⟩
      · constructor
        · intro h
          simp [isErr] at h
        · rintro (h | ⟨q, hq, hqid⟩)
          · exact Option.noConfusion h
          · obtain rfl : p = q := by injection hq
            exact absurd hqid hid
      · intro q hq hqid
        obtain rfl : p = q := by injection hq
        rfl
      · intro q hq hqid u hu
        rcases List.mem_append.mp hu with h1 | h2
        · have := hused u h1
          show u < gen + 1
          omega
        · have : u = gen := by simpa using h2
          subst this
          show u < u + 1
          omega

/-- A product whose identifier is present. -/
def c4Prod : ProductContract := { id := some "prod-1" }

/-- The backend response to the create-or-update call. -/
def c4Resp : SubscriptionContract :=
  { userId := some "u1", name := some "SUB1", state := some "active",
    primaryKey := some "pk", secondaryKey := some "sk" }

/-- Witness for `addUserSubscriptionToProduct_spec`: with counter 3 and
identifiers 0, 1, 2 already used, the call succeeds, uses the fresh
identifier 3 with state active, and every used identifier stays below the
next counter value. -/
theorem addUserSubscriptionToProduct_spec_witness :
    addUserSubscriptionToProduct 3 "u1" "plan-A" (some c4Prod) c4Resp =
      (Except.ok c4Resp, 4,
       [ApiCall.getProduct "plan-A",
        ApiCall.createOrUpdateSubscriptionCall 3
          { displayName := 3, productId := "prod-1", state := "active",
            userId := "u1" }]) ∧
    3 ∉ [0, 1, 2] ∧
    3 < (addUserSubscriptionToProduct 3 "u1" "plan-A" (some c4Prod)
          c4Resp).2.1 :=
  ⟨(addUserSubscriptionToProduct_spec 3 "u1" "plan-A" (some c4Prod) c4Resp
      [0, 1, 2] (by decide)).2.1 c4Prod rfl (by decide),
   (addUserSubscriptionToProduct_spec 3 "u1" "plan-A" (some c4Prod) c4Resp
      [0, 1, 2] (by decide)).2.2.1,
   (addUserSubscriptionToProduct_spec 3 "u1" "plan-A" (some c4Prod) c4Resp
      [0, 1, 2] (by decide)).2.2.2 c4Prod rfl (by decide) 3 (by decide)⟩

/-- Each `getUserSubscription` call issues exactly one backend fetch. -/
theorem getUserSubscription_trace (subscriptionId userId : String)
    (resp : SubscriptionContract) :
    (getUserSubscription subscriptionId userId resp).2 =
      [ApiCall.getSubscription subscriptionId] := by
  unfold getUserSubscription
  split <;> rfl

/-- Claim C5 (amended): both key-regeneration operations return absent
without issuing the regeneration call when the fetched subscription's
owner differs from the caller or the subscription lacks a name; when the
owner matches and a name is present, the regeneration call is issued
between two fetches and the result is the ownership-checked second
fetch. -/
theorem regenerateKeys_spec (subscriptionId userId : String)
    (resp1 resp2 : SubscriptionContract) :
    ((resp1.userId ≠ some userId ∨ falsyStr resp1.name) →
       regeneratePrimaryKey subscriptionId userId resp1 resp2 =
           (none, [ApiCall.getSubscription subscriptionId]) ∧
         regenerateSecondaryKey subscriptionId userId resp1 resp2 =
           (none, [ApiCall.getSubscription subscriptionId])) ∧
    (resp1.userId = some userId → ¬ falsyStr resp1.name →
       regeneratePrimaryKey subscriptionId userId resp1 resp2 =
           ((getUserSubscription subscriptionId userId resp2).1,
            [ApiCall.getSubscription subscriptionId,
             ApiCall.regeneratePrimaryKeyCall subscriptionId,
             ApiCall.getSubscription subscriptionId]) ∧
         regenerateSecondaryKey subscriptionId userId resp1 resp2 =
           ((getUserSubscription subscriptionId userId resp2).1,
            [ApiCall.getSubscription subscriptionId,
             ApiCall.regenerateSecondaryKeyCall subscriptionId,
             ApiCall.getSubscription subscriptionId])) := by
  constructor
  · intro h
    have h1 : getUserSubscription subscriptionId userId resp1 =
        (none, [ApiCall.getSubscription subscriptionId]) := by
      unfold getUserSubscription
      rw [if_pos h]
    constructor
    · simp only [regeneratePrimaryKey, h1]
    · simp only [regenerateSecondaryKey, h1]
  · intro howner hname
    have h1 : getUserSubscription subscriptionId userId resp1 =
        (some resp1, [ApiCall.getSubscription subscriptionId]) := by
      unfold getUserSubscription
      rw [if_neg]
      rintro (h | h)
      · exact h howner
      · exact hname h
    have h2 := getUserSubscription_trace subscriptionId userId resp2
    constructor
    · simp only [regeneratePrimaryKey, h1, h2]
      rfl
    · simp only [regenerateSecondaryKey, h1, h2]
      rfl

/-- Witness for `regenerateKeys_spec`: the subscription `c10Sub1` is owned
by u1; a caller u9 is refused without a regeneration call, while u1
triggers the full fetch-regenerate-fetch sequence. -/
theorem regenerateKeys_spec_witness :
    (regeneratePrimaryKey "s1" "u9" c10Sub1 c10Sub2 =
         (none, [ApiCall.getSubscription "s1"]) ∧
       regenerateSecondaryKey "s1" "u9" c10Sub1 c10Sub2 =
         (none, [ApiCall.getSubscription "s1"])) ∧
    (regeneratePrimaryKey "s1" "u1" c10Sub1 c10Sub2 =
         ((getUserSubscription "s1" "u1" c10Sub2).1,
          [ApiCall.getSubscription "s1",
           ApiCall.regeneratePrimaryKeyCall "s1",
           ApiCall.getSubscription "s1"]) ∧
       regenerateSecondaryKey "s1" "u1" c10Sub1 c10Sub2 =
         ((getUserSubscription "s1" "u1" c10Sub2).1,
          [ApiCall.getSubscription "s1",
           ApiCall.regenerateSecondaryKeyCall "s1",
           ApiCall.getSubscription "s1"])) :=
  ⟨(regenerateKeys_spec "s1" "u9" c10Sub1 c10Sub2).1 (Or.inl (by decide)),
   (regenerateKeys_spec "s1" "u1" c10Sub1 c10Sub2).2 (by decide) (by decide)⟩

end Onboarding
